import Mathlib

/-!
Shallow embedding of the cross-platform C11 threads library
(`threads.h` + its implementation file).

Each C function compiles, per build, to exactly one of two bodies
(`#ifdef __unix__` / `#ifdef _WIN32`), so every function is embedded twice:
a `posix_*` definition for the POSIX branch and a `win_*` definition for the
Windows branch.  Native calls (`pthread_*`, `CreateThread`,
`WaitForSingleObject`, `GetThreadId`, `GetLastError`, ...) are out of scope
of the library; their outcomes enter the embedding as explicit arguments, and
each embedded function returns the library-visible effects: the `int` result
code, the value (if any) stored into `errno`, and the value (if any) written
through an out pointer.
-/

namespace CThreads

/-! Result-code enumeration from `threads.h` (`enum { thrd_success, thrd_nomem,
thrd_timedout, thrd_busy, thrd_error }`, values 0..4). -/

def thrd_success : Int := 0

def thrd_nomem : Int := 1

def thrd_timedout : Int := 2

def thrd_busy : Int := 3

def thrd_error : Int := 4

/-! Mutex-kind enumeration from `threads.h`
(`enum { mtx_plain, mtx_recursive, mtx_timed }`, values 0..2, combined with
bitwise or). -/

def mtx_plain : Nat := 0

def mtx_recursive : Nat := 1

def mtx_timed : Nat := 2

/-! Platform constants: Windows wait statuses and POSIX errno values
referenced by the implementation. -/

def WAIT_OBJECT_0 : Nat := 0

def WAIT_TIMEOUT : Nat := 258

def WAIT_FAILED : Nat := 4294967295

def INFINITE : Nat := 4294967295

def EBUSY : Int := 16

def EINVAL : Int := 22

def ENOMEM : Int := 12

/-- The C cast `(int) d` of a 32-bit unsigned `DWORD` value. -/
def intOfDword (d : Nat) : Int :=
  if d < 2147483648 then (d : Int) else (d : Int) - 4294967296

/-- The library-visible outcome of one call: the returned result code and the
value stored into `errno` (`none` when the call leaves `errno` untouched). -/
structure OpResult where
  ret : Int
  errnoSet : Option Int
  deriving DecidableEq

/-- Outcome of `thrd_join`: result code, the value written through the `res`
out pointer (`none` when nothing is written), and the `errno` effect. -/
structure JoinResult where
  ret : Int
  written : Option Int
  errnoSet : Option Int
  deriving DecidableEq

/-- `thrd_create`, POSIX branch.  `value` is the `pthread_create` return:
nonzero means failure and is stored into `errno`. -/
def posix_thrd_create (value : Int) : OpResult :=
  if value ≠ 0 then ⟨thrd_error, some value⟩
  else ⟨thrd_success, none⟩

/-- `thrd_create`, Windows branch.  `createdHandle` is the `CreateThread`
result (`none` for `NULL`); on `NULL` the current `GetLastError()` value
(`lastError`) is stored into `errno`. -/
def win_thrd_create (createdHandle : Option Nat) (lastError : Int) : OpResult :=
  if createdHandle = none then ⟨thrd_error, some lastError⟩
  else ⟨thrd_success, none⟩

/-- `thrd_current`, POSIX branch: returns `pthread_self()`, the calling
thread's identifier, passed in as `self`. -/
def posix_thrd_current (self : Nat) : Nat := self

/-- `thrd_current`, Windows branch: returns `GetCurrentThread()`, the
pseudo-handle for the calling thread, passed in as `pseudoHandle`. -/
def win_thrd_current (pseudoHandle : Nat) : Nat := pseudoHandle

/-- `thrd_equal`, POSIX branch: the C expression `(lhs == rhs)` on two
`pthread_t` values. -/
def posix_thrd_equal (lhs rhs : Nat) : Int :=
  if lhs = rhs then 1 else 0

/-- `thrd_equal`, Windows branch.  `lhsId` and `rhsId` are the `GetThreadId`
results for the two handles (`0` means lookup failure); `lhsLastError` and
`rhsLastError` are the `GetLastError()` values read on the respective failure
paths.  On failure the function returns `thrd_error`. -/
def win_thrd_equal (lhsId rhsId : Nat) (lhsLastError rhsLastError : Int) : OpResult :=
  if lhsId = 0 then ⟨thrd_error, some lhsLastError⟩
  else if rhsId = 0 then ⟨thrd_error, some rhsLastError⟩
  else ⟨if lhsId = rhsId then 1 else 0, none⟩

/-- `thrd_join`, POSIX branch.  `value` is the `pthread_join` return.  The C
code passes `(void**) &res` — the address of its own local copy of the `res`
parameter — so the caller's out location is never written. -/
def posix_thrd_join (value : Int) : JoinResult :=
  if value ≠ 0 then ⟨thrd_error, none, some value⟩
  else ⟨thrd_success, none, none⟩

/-- `thrd_join`, Windows branch.  `status` is the
`WaitForSingleObject(thr, INFINITE)` result; when `resNonNull` the status is
cast to `int` and stored through `res` before the success check; a
non-`WAIT_OBJECT_0` status then yields `thrd_error`, with `errno` set from
`GetLastError()` (`lastError`) when the status is `WAIT_FAILED` and from the
status itself otherwise. -/
def win_thrd_join (status : Nat) (lastError : Int) (resNonNull : Bool) : JoinResult :=
  let written : Option Int := if resNonNull then some (intOfDword status) else none
  if status ≠ WAIT_OBJECT_0 then
    if status = WAIT_FAILED then ⟨thrd_error, written, some lastError⟩
    else ⟨thrd_error, written, some (intOfDword status)⟩
  else ⟨thrd_success, written, none⟩

/-- `mtx_init`, POSIX branch.  `value` is the `pthread_mutex_init` return for
whichever branch runs (recursive-attribute or plain); an unsupported `type`
is rejected with `errno = EINVAL` before any native call. -/
def posix_mtx_init (type : Nat) (value : Int) : OpResult :=
  if type = Nat.lor mtx_plain mtx_recursive then
    (if value ≠ 0 then ⟨thrd_error, some value⟩ else ⟨thrd_success, none⟩)
  else if type = mtx_plain then
    (if value ≠ 0 then ⟨thrd_error, some value⟩ else ⟨thrd_success, none⟩)
  else ⟨thrd_error, some EINVAL⟩

/-- `mtx_init`, Windows branch.  The type check is transcribed as written in
the C source: `if (type != mtx_plain || type != (mtx_plain | mtx_recursive))
return thrd_error;` with no `errno` assignment on that path.  `created` is
the `CreateMutex` result (`none` for `NULL`), `lastError` the
`GetLastError()` value read on the `NULL` path. -/
def win_mtx_init (type : Nat) (created : Option Nat) (lastError : Int) : OpResult :=
  if type ≠ mtx_plain ∨ type ≠ Nat.lor mtx_plain mtx_recursive then
    ⟨thrd_error, none⟩
  else if created = none then ⟨thrd_error, some lastError⟩
  else ⟨thrd_success, none⟩

/-- `mtx_lock`, POSIX branch.  `value` is the `pthread_mutex_lock` return. -/
def posix_mtx_lock (value : Int) : OpResult :=
  if value ≠ 0 then ⟨thrd_error, some value⟩
  else ⟨thrd_success, none⟩

/-- `mtx_lock`, Windows branch.  `status` is the
`WaitForSingleObject(*mutex, INFINITE)` result. -/
def win_mtx_lock (status : Nat) (lastError : Int) : OpResult :=
  if status ≠ WAIT_OBJECT_0 then
    if status = WAIT_FAILED then ⟨thrd_error, some lastError⟩
    else ⟨thrd_error, some (intOfDword status)⟩
  else ⟨thrd_success, none⟩

/-- `mtx_trylock`, POSIX branch.  `value` is the `pthread_mutex_trylock`
return; `EBUSY` maps to `thrd_busy`, any other nonzero value to
`thrd_error`, and the nonzero value is stored into `errno`. -/
def posix_mtx_trylock (value : Int) : OpResult :=
  if value ≠ 0 then ⟨if value = EBUSY then thrd_busy else thrd_error, some value⟩
  else ⟨thrd_success, none⟩

/-- `mtx_trylock`, Windows branch.  `status` is the
`WaitForSingleObject(*mutex, INFINITE)` result; `WAIT_TIMEOUT` maps to
`thrd_busy`, `WAIT_FAILED` to `thrd_error` with `errno` from
`GetLastError()`, any other non-`WAIT_OBJECT_0` status to `thrd_error`. -/
def win_mtx_trylock (status : Nat) (lastError : Int) : OpResult :=
  if status ≠ WAIT_OBJECT_0 then
    if status = WAIT_TIMEOUT then ⟨thrd_busy, some (intOfDword status)⟩
    else if status = WAIT_FAILED then ⟨thrd_error, some lastError⟩
    else ⟨thrd_error, some (intOfDword status)⟩
  else ⟨thrd_success, none⟩

/-- `mtx_unlock`, POSIX branch.  `value` is the `pthread_mutex_unlock`
return. -/
def posix_mtx_unlock (value : Int) : OpResult :=
  if value ≠ 0 then ⟨thrd_error, some value⟩
  else ⟨thrd_success, none⟩

/-- `mtx_unlock`, Windows branch.  `releaseOk` is false when
`ReleaseMutex(*mutex) == 0`. -/
def win_mtx_unlock (releaseOk : Bool) (lastError : Int) : OpResult :=
  if releaseOk = false then ⟨thrd_error, some lastError⟩
  else ⟨thrd_success, none⟩

/-! ### Blocking behaviour of the Windows wait primitive

`mtx_trylock`'s non-blocking contract is about whether the call can suspend
the caller, so the native wait must be modelled with its timeout semantics,
not only its returned status.  The model below follows the documented
behaviour of the Windows single-object wait: an object currently held by
another thread that does not release it makes a bounded wait return
`WAIT_TIMEOUT` once the timeout elapses, while a wait with the `INFINITE`
timeout never returns (the caller stays blocked); an available object is
acquired and the call returns `WAIT_OBJECT_0`. -/

/-- Outcome of a native wait: either the call returns with a status, or the
caller remains blocked. -/
inductive WaitOutcome where
  | ret (status : Nat) : WaitOutcome
  | blocked : WaitOutcome
  deriving DecidableEq

/-- Native single-object wait on a mutex, as a function of whether the mutex
is held by another (non-releasing) thread and of the timeout argument. -/
def waitForSingleObject (heldByOther : Bool) (timeout : Nat) : WaitOutcome :=
  if heldByOther then
    if timeout = INFINITE then WaitOutcome.blocked
    else WaitOutcome.ret WAIT_TIMEOUT
  else WaitOutcome.ret WAIT_OBJECT_0

/-- The timeout argument the Windows `mtx_trylock` passes to the native wait:
the C source calls `WaitForSingleObject(*mutex, INFINITE)`. -/
def win_mtx_trylock_timeout : Nat := INFINITE

/-- The wait performed by the Windows `mtx_trylock` on a mutex in the given
holding state. -/
def win_mtx_trylock_attempt (heldByOther : Bool) : WaitOutcome :=
  waitForSingleObject heldByOther win_mtx_trylock_timeout

/-!  ## Theorems about the claims -/

/-- C1: `mtx_trylock` does not satisfy the non-blocking contract on every
backend.  The Windows branch passes the `INFINITE` timeout to the native
wait, so on a mutex held by another (non-releasing) thread the call blocks
instead of returning `thrd_busy` after a bounded check; its `WAIT_TIMEOUT`
branch is unreachable with that timeout.  (The POSIX branch does behave as
claimed: `pthread_mutex_trylock` returning `EBUSY` maps to `thrd_busy`.) -/
theorem c1_win_trylock_blocks :
    win_mtx_trylock_timeout = INFINITE ∧
    win_mtx_trylock_attempt true = WaitOutcome.blocked ∧
    (posix_mtx_trylock EBUSY).ret = thrd_busy := by
  refine ⟨rfl, rfl, ?_⟩
  decide

/-- C2: `thrd_join` never delivers the joined thread's exit code.  On the
Windows branch a successful join writes the native wait status
(`WAIT_OBJECT_0`, i.e. `0`) through the out pointer — a value independent of
the entry function's return, so an entry returning `42` still yields
`*out = 0`.  On the POSIX branch the out location is never written at all
(`pthread_join` receives the address of the local copy of the pointer). -/
theorem c2_join_does_not_deliver_exit_code :
    (∀ e : Int, (win_thrd_join WAIT_OBJECT_0 e true).ret = thrd_success ∧
      (win_thrd_join WAIT_OBJECT_0 e true).written = some 0) ∧
    (∀ v : Int, (posix_thrd_join v).written = none) := by
  constructor
  · intro e
    exact ⟨rfl, rfl⟩
  · intro v
    unfold posix_thrd_join
    split <;> rfl

/-- C3: on the Windows backend `mtx_init` with kind `mtx_plain` fails.  The
transcribed type check `type ≠ mtx_plain ∨ type ≠ (mtx_plain | mtx_recursive)`
is a tautology (the two constants differ), so the Windows `mtx_init` returns
`thrd_error` for every kind, `mtx_plain` included, and the plain round trip
cannot complete with success on that backend.  (The POSIX branch does
initialize a plain mutex successfully when the native init returns `0`.) -/
theorem c3_win_mtx_init_plain_always_error :
    (∀ (created : Option Nat) (e : Int),
      (win_mtx_init mtx_plain created e).ret = thrd_error) ∧
    (posix_mtx_init mtx_plain 0).ret = thrd_success := by
  constructor
  · intro created e
    have h : mtx_plain ≠ mtx_plain ∨ mtx_plain ≠ Nat.lor mtx_plain mtx_recursive := by
      decide
    unfold win_mtx_init
    rw [if_pos h]
  · decide

/-- C4: a failing path exists that returns without setting `errno`: the
Windows `mtx_init` type-rejection path returns `thrd_error` and leaves the
`errno` slot untouched (shown here at kind `mtx_timed`, where the path is
taken for every `CreateMutex` outcome and every pending native error). -/
theorem c4_win_mtx_init_fails_without_errno :
    ∀ (created : Option Nat) (e : Int),
      (win_mtx_init mtx_timed created e).ret = thrd_error ∧
      (win_mtx_init mtx_timed created e).errnoSet = none := by
  intro created e
  have h : mtx_timed ≠ mtx_plain ∨ mtx_timed ≠ Nat.lor mtx_plain mtx_recursive := by
    decide
  unfold win_mtx_init
  rw [if_pos h]
  exact ⟨rfl, rfl⟩

/-- C5 counterexample: the native wait-timeout condition does not map to
`thrd_timedout`.  The Windows `mtx_lock` translates the `WAIT_TIMEOUT`
status to `thrd_error`. -/
theorem c5_wait_timeout_not_timedout :
    (win_mtx_lock WAIT_TIMEOUT 0).ret = thrd_error ∧
    (win_mtx_lock WAIT_TIMEOUT 0).ret ≠ thrd_timedout := by
  decide

/-- C5 (amended): the result translation maps a native would-block condition
to `thrd_busy` (`EBUSY` in the POSIX `mtx_trylock`, `WAIT_TIMEOUT` in the
Windows `mtx_trylock`), native success to `thrd_success`, and every other
non-success native condition — including a wait-timeout in `mtx_lock` or
`thrd_join` — to `thrd_error`; `thrd_timedout` is never produced. -/
theorem c5_result_translation :
    (∀ v : Int, (posix_mtx_trylock v).ret =
      if v = 0 then thrd_success else if v = EBUSY then thrd_busy else thrd_error) ∧
    (∀ v : Int, (posix_mtx_lock v).ret =
      if v = 0 then thrd_success else thrd_error) ∧
    (∀ v : Int, (posix_thrd_join v).ret =
      if v = 0 then thrd_success else thrd_error) ∧
    (∀ (s : Nat) (e : Int), (win_mtx_trylock s e).ret =
      if s = WAIT_OBJECT_0 then thrd_success
      else if s = WAIT_TIMEOUT then thrd_busy else thrd_error) ∧
    (∀ (s : Nat) (e : Int), (win_mtx_lock s e).ret =
      if s = WAIT_OBJECT_0 then thrd_success else thrd_error) ∧
    (∀ (s : Nat) (e : Int) (r : Bool), (win_thrd_join s e r).ret =
      if s = WAIT_OBJECT_0 then thrd_success else thrd_error) := by
  refine ⟨?_, ?_, ?_, ?_, ?_, ?_⟩
  · intro v
    by_cases h : v = 0 <;> simp [posix_mtx_trylock, h]
  · intro v
    by_cases h : v = 0 <;> simp [posix_mtx_lock, h]
  · intro v
    by_cases h : v = 0 <;> simp [posix_thrd_join, h]
  · intro s e
    by_cases h : s = WAIT_OBJECT_0
    · simp [win_mtx_trylock, h]
    · by_cases h2 : s = WAIT_TIMEOUT <;>
        by_cases h3 : s = WAIT_FAILED <;>
          simp_all [win_mtx_trylock]
  · intro s e
    by_cases h : s = WAIT_OBJECT_0
    · simp [win_mtx_lock, h]
    · by_cases h3 : s = WAIT_FAILED <;> simp_all [win_mtx_lock]
  · intro s e r
    by_cases h : s = WAIT_OBJECT_0
    · simp [win_thrd_join, h]
    · by_cases h3 : s = WAIT_FAILED <;> simp_all [win_thrd_join]

/-- C6: `thrd_create` never returns `thrd_nomem`.  A native out-of-memory
failure (`pthread_create` returning `ENOMEM`) yields `thrd_error`, and on
both branches the only possible results are `thrd_success` and
`thrd_error`. -/
theorem c6_create_no_nomem :
    (posix_thrd_create ENOMEM).ret = thrd_error ∧
    (∀ v : Int, (posix_thrd_create v).ret ≠ thrd_nomem) ∧
    (∀ (h : Option Nat) (e : Int), (win_thrd_create h e).ret ≠ thrd_nomem) := by
  refine ⟨by decide, ?_, ?_⟩
  · intro v
    by_cases h : v = 0 <;>
      simp [posix_thrd_create, h, thrd_error, thrd_nomem, thrd_success]
  · intro h e
    by_cases hn : h = none <;>
      simp [win_thrd_create, hn, thrd_error, thrd_nomem, thrd_success]

/-- C7: for every kind other than `mtx_plain` and `mtx_plain | mtx_recursive`
— in particular for `mtx_timed` — `mtx_init` deterministically returns
`thrd_error` and never `thrd_success`, on both branches, for every native
outcome. -/
theorem c7_mtx_init_rejects_unsupported (type : Nat)
    (h1 : type ≠ mtx_plain) (h2 : type ≠ Nat.lor mtx_plain mtx_recursive) :
    (∀ v : Int, (posix_mtx_init type v).ret = thrd_error ∧
      (posix_mtx_init type v).ret ≠ thrd_success) ∧
    (∀ (c : Option Nat) (e : Int), (win_mtx_init type c e).ret = thrd_error ∧
      (win_mtx_init type c e).ret ≠ thrd_success) := by
  constructor
  · intro v
    unfold posix_mtx_init
    rw [if_neg h2, if_neg h1]
    exact ⟨rfl, by decide⟩
  · intro c e
    unfold win_mtx_init
    rw [if_pos (Or.inl h1)]
    exact ⟨rfl, by decide⟩

/-- Witness for C7 at the concrete kind `mtx_timed`. -/
theorem c7_witness :
    mtx_timed ≠ mtx_plain ∧ mtx_timed ≠ Nat.lor mtx_plain mtx_recursive ∧
    (∀ v : Int, (posix_mtx_init mtx_timed v).ret = thrd_error ∧
      (posix_mtx_init mtx_timed v).ret ≠ thrd_success) ∧
    (∀ (c : Option Nat) (e : Int), (win_mtx_init mtx_timed c e).ret = thrd_error ∧
      (win_mtx_init mtx_timed c e).ret ≠ thrd_success) :=
  ⟨by decide, by decide,
    (c7_mtx_init_rejects_unsupported mtx_timed (by decide) (by decide)).1,
    (c7_mtx_init_rejects_unsupported mtx_timed (by decide) (by decide)).2⟩

/-- C8: on the Windows backend a failed `GetThreadId` lookup does record the
native error in `errno`, but the call then returns `thrd_error`, whose value
is `4` — a non-zero value, which under the documented boolean contract reads
as "same thread", not the claimed `0` / non-equal answer. -/
theorem c8_equal_lookup_failure_returns_nonzero :
    ∀ (rhsId : Nat) (e1 e2 : Int),
      (win_thrd_equal 0 rhsId e1 e2).ret = thrd_error ∧
      (win_thrd_equal 0 rhsId e1 e2).errnoSet = some e1 ∧
      thrd_error ≠ 0 := by
  intro rhsId e1 e2
  exact ⟨rfl, rfl, by decide⟩

/-- C9: `equal(current(), current())` is non-zero on both backends.  On
POSIX the two `pthread_self()` values coincide, so the comparison yields
`1`; on Windows the two `GetCurrentThread()` pseudo-handles coincide, so
either both lookups fail (returning `thrd_error = 4`, non-zero) or both
yield the same identifier (returning `1`). -/
theorem c9_equal_current_current :
    (∀ self : Nat,
      posix_thrd_equal (posix_thrd_current self) (posix_thrd_current self) ≠ 0) ∧
    (∀ (getId : Nat → Nat) (pseudo : Nat) (e1 e2 : Int),
      (win_thrd_equal (getId (win_thrd_current pseudo))
        (getId (win_thrd_current pseudo)) e1 e2).ret ≠ 0) := by
  constructor
  · intro self
    simp [posix_thrd_equal, posix_thrd_current]
  · intro getId pseudo e1 e2
    by_cases h : getId (win_thrd_current pseudo) = 0 <;>
      simp [win_thrd_equal, h, thrd_error]

/-- C10: the Windows `thrd_join` writes the native wait status through a
non-null `res` pointer on every path — before the success check — so the
out location is modified even on the paths that return `thrd_error`. -/
theorem c10_win_join_writes_before_check :
    ∀ (status : Nat) (e : Int),
      (win_thrd_join status e true).written = some (intOfDword status) ∧
      (win_thrd_join status e true).ret =
        (if status = WAIT_OBJECT_0 then thrd_success else thrd_error) := by
  intro status e
  by_cases h : status = WAIT_OBJECT_0
  · simp [win_thrd_join, h]
  · by_cases h3 : status = WAIT_FAILED <;> simp_all [win_thrd_join]

end CThreads
